import Mathlib

/-!
Verification of the change-detection and update-decision engine of a
Telegram crypto-news bot (`cryptopanic_bot.py`).

The embedding mirrors the Python source.  News items are the dictionaries
built by `fetch_cryptopanic_api`; since Python dictionary access with
brackets (`item["title"]`) raises `KeyError` on a missing key, item fields
are `Option`-typed and the functions that access them by bracket return
`Except String` results, with the `try/except` blocks of the source modelled as
explicit handlers of those results.
-/

set_option autoImplicit false

namespace CryptoPanicBot

/-- A news-item dictionary as built by `fetch_cryptopanic_api`.  Fields are
`Option`-typed to model Python dictionaries: `none` means the key is absent,
so bracket access raises.  The `currencies` value is a Python list built as
`[c.get("code") for c in ...]`, whose elements may themselves be `None`. -/
structure RawItem where
  title : Option String
  url : Option String
  source : Option String
  published_at : Option String
  sentiment : Option String
  currencies : Option (List (Option String))
  deriving DecidableEq, Repr

/-- The `news_data` dictionary: the three fixed sentiment keys, each holding
a list of items.  `fetch_cryptopanic_api` always constructs all three keys. -/
structure RawSnapshot where
  bullish : List RawItem
  bearish : List RawItem
  neutral : List RawItem
  deriving DecidableEq, Repr

/-- The check `sum(len(items) for items in news_data.values())` in `send_news_update`. -/
def totalNews (nd : RawSnapshot) : Nat :=
  nd.bullish.length + nd.bearish.length + nd.neutral.length

/-- Bracket access into a Python dictionary field: `KeyError` when absent. -/
def getOrErr {α : Type} (o : Option α) (msg : String) : Except String α :=
  match o with
  | some a => Except.ok a
  | none => Except.error msg

/-- The set comprehension `{item["title"] for item in items}` evaluated
left to right, raising at the first item lacking a `"title"` key.  The
result is returned as the list of titles in order (the set is taken later). -/
def titlesOf : List RawItem → Except String (List String)
  | [] => Except.ok []
  | it :: rest =>
    match it.title with
    | none => Except.error "KeyError: title"
    | some t =>
      match titlesOf rest with
      | Except.error e => Except.error e
      | Except.ok ts => Except.ok (t :: ts)

/-- The body of `should_send_update` (the code inside its `try:`), with the
engine state `last_sent_news` passed explicitly.  `none` models the falsy
initial `{}`; each category contributes the set difference
`current_titles - previous_titles` and the counts are summed. -/
def shouldSendBody (prev : Option RawSnapshot) (nd : RawSnapshot) :
    Except String Bool :=
  match prev with
  | none => Except.ok true
  | some p => do
    let cb ← titlesOf nd.bullish
    let pb ← titlesOf p.bullish
    let cr ← titlesOf nd.bearish
    let pr ← titlesOf p.bearish
    let cn ← titlesOf nd.neutral
    let pn ← titlesOf p.neutral
    let k := (cb.toFinset \ pb.toFinset).card + (cr.toFinset \ pr.toFinset).card
      + (cn.toFinset \ pn.toFinset).card
    Except.ok (decide (3 ≤ k))

/-- Function `should_send_update`: the `try:` body, with the `except:` clause
returning `True` ("When in doubt, send the update"). -/
def should_send_update (prev : Option RawSnapshot) (nd : RawSnapshot) : Bool :=
  match shouldSendBody prev nd with
  | Except.ok b => b
  | Except.error _ => true

/-- Title keys of a category: the titles present among the items of a list, as a
finite set (items lacking a title key contribute nothing). -/
def titleKeys (items : List RawItem) : Finset String :=
  (items.filterMap RawItem.title).toFinset

/-- The number of title-keys present in a category of `c` but absent from
the same category of `p`, summed over the three categories. -/
def newItemCount (p c : RawSnapshot) : Nat :=
  (titleKeys c.bullish \ titleKeys p.bullish).card
    + (titleKeys c.bearish \ titleKeys p.bearish).card
    + (titleKeys c.neutral \ titleKeys p.neutral).card

/-- Every item of the snapshot carries a `"title"` key, as is true of every
snapshot constructed by `fetch_cryptopanic_api`. -/
def WF (nd : RawSnapshot) : Prop :=
  (∀ it ∈ nd.bullish, it.title.isSome) ∧ (∀ it ∈ nd.bearish, it.title.isSome)
    ∧ (∀ it ∈ nd.neutral, it.title.isSome)

instance : DecidablePred WF := fun nd => by
  unfold WF; infer_instance

theorem titlesOf_of_all_some {items : List RawItem}
    (h : ∀ it ∈ items, it.title.isSome) :
    titlesOf items = Except.ok (items.filterMap RawItem.title) := by
  induction items with
  | nil => rfl
  | cons it rest ih =>
    have hit : it.title.isSome := h it (List.mem_cons_self it rest)
    obtain ⟨t, ht⟩ := Option.isSome_iff_exists.mp hit
    have hrest := ih (fun x hx => h x (List.mem_cons_of_mem it hx))
    simp [titlesOf, ht, hrest, List.filterMap_cons]

theorem shouldSendBody_of_WF {p c : RawSnapshot} (hp : WF p) (hc : WF c) :
    shouldSendBody (some p) c = Except.ok (decide (3 ≤ newItemCount p c)) := by
  obtain ⟨hpb, hpr, hpn⟩ := hp
  obtain ⟨hcb, hcr, hcn⟩ := hc
  simp [shouldSendBody, titlesOf_of_all_some hpb, titlesOf_of_all_some hpr,
    titlesOf_of_all_some hpn, titlesOf_of_all_some hcb, titlesOf_of_all_some hcr,
    titlesOf_of_all_some hcn, newItemCount, titleKeys, Bind.bind, Except.bind]

/-- Python string slicing `s[:n]`, by code point. -/
def pySlice (s : String) (n : Nat) : String :=
  String.mk (s.data.take n)

/-- The title clean-up of `format_telegram_message`:
`if len(title) > 100: title = title[:97] + "..."`. -/
def truncTitle (t : String) : String :=
  if 100 < t.length then pySlice t 97 ++ "..." else t

/-- Model of `", ".join(item["currencies"])` iterated left to right: a `None`
element raises `TypeError` because only strings can be joined. -/
def seqCodes : List (Option String) → Except String (List String)
  | [] => Except.ok []
  | none :: _ => Except.error "TypeError: sequence item: expected str instance"
  | some c :: rest =>
    match seqCodes rest with
    | Except.error e => Except.error e
    | Except.ok cs => Except.ok (c :: cs)

/-- One iteration of a category loop body in `format_telegram_message`:
format the currencies segment, truncate the title, and render the two
message lines for item number `i` (1-based).  Bracket accesses follow the
order of the source: `item["currencies"]`, `item["title"]`, `item["url"]`,
`item["source"]`. -/
def formatItemLine (i : Nat) (it : RawItem) : Except String String := do
  let curList ← getOrErr it.currencies "KeyError: currencies"
  let cur ←
    if curList.isEmpty then Except.ok ""
    else do
      let codes ← seqCodes curList
      Except.ok (" [" ++ String.intercalate ", " codes ++ "]")
  let t ← getOrErr it.title "KeyError: title"
  let title := truncTitle t
  let u ← getOrErr it.url "KeyError: url"
  let src ← getOrErr it.source "KeyError: source"
  Except.ok (toString i ++ ". [" ++ title ++ "](" ++ u ++ ")" ++ cur ++ "\n"
    ++ "   *Source:* " ++ src ++ "\n\n")

/-- The category loop `for i, item in enumerate(items, i0): ...`,
concatenating the rendered lines. -/
def itemLines : Nat → List RawItem → Except String String
  | _, [] => Except.ok ""
  | i, it :: rest => do
    let l ← formatItemLine i it
    let r ← itemLines (i + 1) rest
    Except.ok (l ++ r)

/-- One category paragraph: emitted only when the item list is truthy
(non-empty), rendering `items[:5]` enumerated from 1 under the header. -/
def categoryBlock (header : String) (items : List RawItem) : Except String String :=
  if items.isEmpty then Except.ok ""
  else do
    let body ← itemLines 1 (items.take 5)
    Except.ok (header ++ body)

/-- The body of `format_telegram_message` (the code inside its `try:`),
with `datetime.now().strftime("%Y-%m-%d %H:%M")` passed as `now`. -/
def formatBody (nd : RawSnapshot) (fud : String) (now : String) :
    Except String String := do
  let base := "🔔 *CRYPTO NEWS SENTIMENT UPDATE* 🔔\n\n"
  let withFud :=
    if fud = "" then base
    else base ++ "*AI SENTIMENT ANALYSIS*\n" ++ fud ++ "\n\n"
  let bb ← categoryBlock "📈 *BULLISH NEWS*\n\n" nd.bullish
  let rb ← categoryBlock "📉 *BEARISH NEWS*\n\n" nd.bearish
  let nb ← categoryBlock "⚖️ *NEUTRAL NEWS*\n\n" nd.neutral
  Except.ok (withFud ++ bb ++ rb ++ nb
    ++ "_Updated on " ++ now ++ " UTC_\n"
    ++ "_This is not financial advice. DYOR!_ 🧠")

/-- Function `format_telegram_message`: the `try:` body with the `except:` clause
returning `f"Error formatting news: {str(e)}"`. -/
def format_telegram_message (nd : RawSnapshot) (fud : String) (now : String) :
    String :=
  match formatBody nd fud now with
  | Except.ok s => s
  | Except.error e => "Error formatting news: " ++ e

/-- A post object from the CryptoPanic JSON, read with `.get` defaults in
`fetch_cryptopanic_api`; `currencies` is `[c.get("code") for c in ...]`,
already a list of possibly-`None` codes. -/
structure ApiPost where
  title : Option String
  url : Option String
  published_at : Option String
  source_title : Option String
  currencies : List (Option String)
  deriving DecidableEq, Repr

/-- The item dictionary appended for one post of a category: every key is
populated (via `.get` with a default), so the result is fully `some`. -/
def mkNewsItem (sentiment : String) (p : ApiPost) : RawItem :=
  { title := some (p.title.getD "")
    url := some (p.url.getD "")
    source := some (p.source_title.getD "Unknown")
    published_at := some (p.published_at.getD "")
    sentiment := some sentiment
    currencies := some p.currencies }

/-- Outcome of one `client.get(...)` call in `fetch_cryptopanic_api`:
either the call raised (network error / timeout), or it returned a status
code together with a body whose `.json()` parse may itself raise. -/
inductive GetResult where
  | raised : GetResult
  | resp (status : Nat) (body : Except Unit (List ApiPost)) : GetResult
  deriving Repr

/-- Whether the `client.get` call itself raised. -/
def getRaised : GetResult → Bool
  | GetResult.raised => true
  | GetResult.resp _ _ => false

/-- Processing of the response of one category: on status 200 parse the body
(`.json()` may raise) and append the built items, otherwise log and leave
the category empty. -/
def processCategory (sentiment : String) (r : GetResult) :
    Except Unit (List RawItem) :=
  match r with
  | GetResult.raised => Except.error ()
  | GetResult.resp status body =>
    if status = 200 then
      match body with
      | Except.ok posts => Except.ok (posts.map (mkNewsItem sentiment))
      | Except.error _ => Except.error ()
    else Except.ok []

/-- Function `fetch_cryptopanic_api`, over the three responses.  With no API key the
empty `news_data` is returned at once.  The three `client.get` calls run
before any processing, so an exception in any of them reaches the
`except:` clause with `news_data` still empty.  During processing, a
`.json()` exception reaches the `except:` clause with the categories
processed so far already appended — the partially filled `news_data` is
returned. -/
def fetch_cryptopanic_api (hasKey : Bool) (rb rr rn : GetResult) :
    RawSnapshot :=
  if hasKey = false then ⟨[], [], []⟩
  else if getRaised rb || getRaised rr || getRaised rn then ⟨[], [], []⟩
  else
    match processCategory "bullish" rb with
    | Except.error _ => ⟨[], [], []⟩
    | Except.ok bl =>
      match processCategory "bearish" rr with
      | Except.error _ => ⟨bl, [], []⟩
      | Except.ok br =>
        match processCategory "neutral" rn with
        | Except.error _ => ⟨bl, br, []⟩
        | Except.ok nl => ⟨bl, br, nl⟩

/-- The outcome of one `send_news_update` cycle. -/
inductive CycleOutcome where
  | skippedNoContent : CycleOutcome
  | skippedNotSignificant : CycleOutcome
  | sent : CycleOutcome
  | deliveryFailed : CycleOutcome
  deriving DecidableEq, Repr

/-- Result of one cycle: its outcome, the value of `last_sent_news`
afterwards, and the message handed to `bot.send_message` when a delivery
was attempted (`none` when the cycle returned before the send). -/
structure CycleResult where
  outcome : CycleOutcome
  state : Option RawSnapshot
  delivered : Option String
  deriving DecidableEq, Repr

/-- Function `send_news_update`, with the collaborators made explicit: `fetched` is
the snapshot `fetch_cryptopanic_api` returned, `fud` the narrative text
(`""` when OpenAI is unconfigured or failed), `now` the footer timestamp,
and `deliveryOk` whether `bot.send_message` succeeded or raised.  The
outer `try/except` means a delivery exception skips the state assignment,
leaving `last_sent_news` unchanged. -/
def send_news_update (state : Option RawSnapshot) (fetched : RawSnapshot)
    (fud : String) (now : String) (deliveryOk : Bool) : CycleResult :=
  if totalNews fetched = 0 then ⟨CycleOutcome.skippedNoContent, state, none⟩
  else if should_send_update state fetched = false then
    ⟨CycleOutcome.skippedNotSignificant, state, none⟩
  else
    let msg := format_telegram_message fetched fud now
    if deliveryOk then ⟨CycleOutcome.sent, some fetched, some msg⟩
    else ⟨CycleOutcome.deliveryFailed, state, some msg⟩

/-! Sample data used by witnesses. -/

/-- A well-formed item with no currency codes. -/
def sampleItemA : RawItem :=
  ⟨some "A", some "http://a", some "SrcA", some "t1", some "bullish", some []⟩

/-- A well-formed item with two currency codes. -/
def sampleItemB : RawItem :=
  ⟨some "B", some "http://b", some "SrcB", some "t2", some "bullish",
    some [some "BTC", some "ETH"]⟩

/-- A well-formed bearish item. -/
def sampleItemC : RawItem :=
  ⟨some "C", some "http://c", some "SrcC", some "t3", some "bearish", some []⟩

/-- A snapshot with three items of distinct titles. -/
def sampleSnap3 : RawSnapshot := ⟨[sampleItemA, sampleItemB], [sampleItemC], []⟩

theorem should_send_update_of_WF {p c : RawSnapshot} (hp : WF p) (hc : WF c) :
    should_send_update (some p) c = decide (3 ≤ newItemCount p c) := by
  simp [should_send_update, shouldSendBody_of_WF hp hc]

theorem should_send_update_self {S : RawSnapshot} (h : WF S) :
    should_send_update (some S) S = false := by
  have hk : newItemCount S S = 0 := by
    simp [newItemCount, Finset.sdiff_self]
  rw [should_send_update_of_WF h h, hk]
  decide

/-- C1: state commit is tied to delivery success — on a cycle that reaches
the delivery step, a failed delivery leaves `last_sent_news` unchanged (so
the same snapshot still triggers the detector and a subsequent successful
cycle sends), whereas a successful delivery replaces the state with the
current snapshot. -/
theorem c1_commit_tied_to_delivery :
    ∀ (st : Option RawSnapshot) (S : RawSnapshot) (fud now : String),
      totalNews S ≠ 0 → should_send_update st S = true →
      (send_news_update st S fud now false).outcome = CycleOutcome.deliveryFailed ∧
      (send_news_update st S fud now false).state = st ∧
      should_send_update (send_news_update st S fud now false).state S = true ∧
      (send_news_update (send_news_update st S fud now false).state S fud now true).outcome
        = CycleOutcome.sent ∧
      (send_news_update st S fud now true).outcome = CycleOutcome.sent ∧
      (send_news_update st S fud now true).state = some S := by
  intro st S fud now h0 hs
  simp [send_news_update, h0, hs]

/-- Witness for C1 at a concrete state and snapshot. -/
theorem c1_commit_tied_to_delivery_witness :
    (send_news_update none sampleSnap3 "" "now" false).outcome
        = CycleOutcome.deliveryFailed ∧
    (send_news_update none sampleSnap3 "" "now" false).state = none ∧
    should_send_update (send_news_update none sampleSnap3 "" "now" false).state
        sampleSnap3 = true ∧
    (send_news_update (send_news_update none sampleSnap3 "" "now" false).state
        sampleSnap3 "" "now" true).outcome = CycleOutcome.sent ∧
    (send_news_update none sampleSnap3 "" "now" true).outcome = CycleOutcome.sent ∧
    (send_news_update none sampleSnap3 "" "now" true).state = some sampleSnap3 :=
  c1_commit_tied_to_delivery none sampleSnap3 "" "now" (by decide) (by decide)

/-- C2: detector contract — with no previous state the detector returns
true; with a previous snapshot it returns true iff the number of
title-keys new to the current snapshot, summed over the three categories,
is at least 3; in particular a current snapshot that only removes items
yields false. -/
theorem c2_detector_contract :
    (∀ c : RawSnapshot, should_send_update none c = true) ∧
    (∀ p c : RawSnapshot, WF p → WF c →
      (should_send_update (some p) c = true ↔ 3 ≤ newItemCount p c) ∧
      (titleKeys c.bullish ⊆ titleKeys p.bullish →
       titleKeys c.bearish ⊆ titleKeys p.bearish →
       titleKeys c.neutral ⊆ titleKeys p.neutral →
       should_send_update (some p) c = false)) := by
  constructor
  · intro c; rfl
  · intro p c hp hc
    constructor
    · rw [should_send_update_of_WF hp hc]; simp
    · intro h1 h2 h3
      have hk : newItemCount p c = 0 := by
        simp [newItemCount, Finset.sdiff_eq_empty_iff_subset.mpr h1,
          Finset.sdiff_eq_empty_iff_subset.mpr h2,
          Finset.sdiff_eq_empty_iff_subset.mpr h3]
      rw [should_send_update_of_WF hp hc, hk]
      decide

/-- Witness for C2: three new titles relative to an empty previous
snapshot make the detector fire. -/
theorem c2_detector_contract_witness :
    should_send_update (some (⟨[], [], []⟩ : RawSnapshot)) sampleSnap3 = true :=
  ((c2_detector_contract.2 ⟨[], [], []⟩ sampleSnap3 (by decide) (by decide)).1).mpr
    (by decide)

/-- C3: an all-empty fetched snapshot ends the cycle as the no-content
skip before the detector runs: no delivery attempt, state unchanged, for
every retained state — even though the detector itself would return true
on a first cycle. -/
theorem c3_empty_snapshot_skips :
    ∀ (st : Option RawSnapshot) (S : RawSnapshot) (fud now : String) (d : Bool),
      totalNews S = 0 →
      send_news_update st S fud now d
          = ⟨CycleOutcome.skippedNoContent, st, none⟩ ∧
        should_send_update none S = true := by
  intro st S fud now d h
  exact ⟨by simp [send_news_update, h], rfl⟩

/-- Witness for C3 at the empty snapshot. -/
theorem c3_empty_snapshot_skips_witness :
    send_news_update none ⟨[], [], []⟩ "" "now" true
        = ⟨CycleOutcome.skippedNoContent, none, none⟩ ∧
      should_send_update none ⟨[], [], []⟩ = true :=
  c3_empty_snapshot_skips none ⟨[], [], []⟩ "" "now" true (by decide)

/-- C9: cycle idempotence — a first cycle whose snapshot passes the
detector sends and commits; running the cycle again against the same
snapshot with delivery succeeding skips as not significant and leaves the
committed state in place, because no title of the snapshot is new relative
to itself. -/
theorem c9_cycle_idempotent :
    ∀ (st : Option RawSnapshot) (S : RawSnapshot) (fud now : String),
      WF S → totalNews S ≠ 0 → should_send_update st S = true →
      (send_news_update st S fud now true).outcome = CycleOutcome.sent ∧
      (send_news_update st S fud now true).state = some S ∧
      (send_news_update (send_news_update st S fud now true).state S fud now true).outcome
        = CycleOutcome.skippedNotSignificant ∧
      (send_news_update (send_news_update st S fud now true).state S fud now true).state
        = some S := by
  intro st S fud now hW h0 hs
  have hfirst : send_news_update st S fud now true
      = ⟨CycleOutcome.sent, some S, some (format_telegram_message S fud now)⟩ := by
    simp [send_news_update, h0, hs]
  rw [hfirst]
  refine ⟨rfl, rfl, ?_, ?_⟩ <;>
    simp [send_news_update, h0, should_send_update_self hW]

/-- Witness for C9 at a first cycle over a concrete three-item snapshot. -/
theorem c9_cycle_idempotent_witness :
    (send_news_update none sampleSnap3 "" "now" true).outcome = CycleOutcome.sent ∧
    (send_news_update none sampleSnap3 "" "now" true).state = some sampleSnap3 ∧
    (send_news_update (send_news_update none sampleSnap3 "" "now" true).state
        sampleSnap3 "" "now" true).outcome = CycleOutcome.skippedNotSignificant ∧
    (send_news_update (send_news_update none sampleSnap3 "" "now" true).state
        sampleSnap3 "" "now" true).state = some sampleSnap3 :=
  c9_cycle_idempotent none sampleSnap3 "" "now" (by decide) (by decide) (by decide)

/-- C10: if the change-detection comparison raises internally (malformed
previous state or snapshot), `should_send_update` swallows the error and
returns true — "when in doubt, send the update". -/
theorem c10_detector_error_defaults_true :
    ∀ (p : Option RawSnapshot) (nd : RawSnapshot) (e : String),
      shouldSendBody p nd = Except.error e → should_send_update p nd = true := by
  intro p nd e h
  simp [should_send_update, h]

/-- Witness for C10: a previous state whose item lacks a title key makes
the comparison raise, and the detector still answers true. -/
theorem c10_detector_error_defaults_true_witness :
    shouldSendBody
        (some ⟨[⟨none, some "u", some "S", some "t", some "bullish", some []⟩], [], []⟩)
        sampleSnap3 = Except.error "KeyError: title" ∧
      should_send_update
        (some ⟨[⟨none, some "u", some "S", some "t", some "bullish", some []⟩], [], []⟩)
        sampleSnap3 = true :=
  ⟨rfl, c10_detector_error_defaults_true _ _ "KeyError: title" rfl⟩

/-- Whether `pat` occurs at the start of `cs`. -/
def charsAtStart : List Char → List Char → Bool
  | [], _ => true
  | _ :: _, [] => false
  | p :: ps, c :: cs => p = c && charsAtStart ps cs

/-- Whether `pat` occurs anywhere inside `cs`. -/
def charsSomewhere : List Char → List Char → Bool
  | pat, [] => pat.isEmpty
  | pat, c :: cs => charsAtStart pat (c :: cs) || charsSomewhere pat cs

/-- Substring test on strings, used to state what a rendered line shows. -/
def hasSubstr (pat s : String) : Bool :=
  charsSomewhere pat.data s.data

/-- A sample API post with all fields present and no currencies. -/
def postA : ApiPost :=
  ⟨some "Bitcoin surges past resistance", some "http://a", some "t", some "Src", []⟩

/-- C4 counterexample: a fetch whose neutral response is malformed (its
`.json()` parse raises) still yields a non-empty partial snapshot, and the
cycle processes it as valid data — ending `sent` with the state replaced,
not as a skip with the state untouched.  The claim that every failed fetch
ends the cycle as a skip is therefore false. -/
theorem c4_fetch_failure_counterexample :
    totalNews (fetch_cryptopanic_api true (GetResult.resp 200 (Except.ok [postA]))
        (GetResult.resp 200 (Except.ok [])) (GetResult.resp 200 (Except.error ()))) ≠ 0 ∧
    (send_news_update none
        (fetch_cryptopanic_api true (GetResult.resp 200 (Except.ok [postA]))
          (GetResult.resp 200 (Except.ok [])) (GetResult.resp 200 (Except.error ())))
        "" "now" true).outcome = CycleOutcome.sent ∧
    (send_news_update none
        (fetch_cryptopanic_api true (GetResult.resp 200 (Except.ok [postA]))
          (GetResult.resp 200 (Except.ok [])) (GetResult.resp 200 (Except.error ())))
        "" "now" true).state
      = some (fetch_cryptopanic_api true (GetResult.resp 200 (Except.ok [postA]))
          (GetResult.resp 200 (Except.ok [])) (GetResult.resp 200 (Except.error ()))) := by
  refine ⟨by decide, by decide, by decide⟩

/-- C4 amended: a fetch failure is never fatal and a fetch that yields no
items at all (no API key, or an exception during the HTTP requests, which
happens before any processing) produces the empty snapshot, upon which the
cycle ends as the no-content skip with state untouched and no delivery
attempt; a partially failed fetch, however, returns the categories
collected before the failure and they are processed as valid data. -/
theorem c4_fetch_failure_amended :
    (∀ rb rr rn : GetResult, fetch_cryptopanic_api false rb rr rn = ⟨[], [], []⟩) ∧
    (∀ rb rr rn : GetResult, (getRaised rb || getRaised rr || getRaised rn) = true →
      fetch_cryptopanic_api true rb rr rn = ⟨[], [], []⟩) ∧
    (∀ (st : Option RawSnapshot) (S : RawSnapshot) (fud now : String) (d : Bool),
      totalNews S = 0 →
      send_news_update st S fud now d = ⟨CycleOutcome.skippedNoContent, st, none⟩) := by
  refine ⟨fun rb rr rn => rfl, fun rb rr rn h => ?_, fun st S fud now d h => ?_⟩
  · simp [fetch_cryptopanic_api, h]
  · simp [send_news_update, h]

/-- Witness for the amended C4: a raised bullish request yields the empty
snapshot and the cycle on an empty snapshot is the no-content skip. -/
theorem c4_fetch_failure_amended_witness :
    fetch_cryptopanic_api true GetResult.raised (GetResult.resp 200 (Except.ok [postA]))
        (GetResult.resp 200 (Except.ok [])) = ⟨[], [], []⟩ ∧
      send_news_update none ⟨[], [], []⟩ "" "now" true
        = ⟨CycleOutcome.skippedNoContent, none, none⟩ :=
  ⟨c4_fetch_failure_amended.2.1 _ _ _ (by decide),
    c4_fetch_failure_amended.2.2 none ⟨[], [], []⟩ "" "now" true (by decide)⟩

/-- C5 counterexample: an item whose currency list is empty renders with
no currency segment at all — the rendered line does not show the literal
`general market` anywhere.  (That literal appears only in the narrative
prompt builder, not in the composed message.) -/
theorem c5_general_market_counterexample :
    formatItemLine 1
        ⟨some "Markets calm today", some "http://ex", some "Wire", some "2025",
          some "neutral", some []⟩
      = Except.ok "1. [Markets calm today](http://ex)\n   *Source:* Wire\n\n" ∧
    hasSubstr "general market"
        "1. [Markets calm today](http://ex)\n   *Source:* Wire\n\n" = false := by
  refine ⟨rfl, by decide⟩

/-- C5 amended: an item with an empty currency sequence renders with an
empty currency segment (sequence number, linked title and source only),
not with any substitute text. -/
theorem c5_empty_codes_amended :
    ∀ (i : Nat) (t u src pub sen : String),
      formatItemLine i ⟨some t, some u, some src, some pub, some sen, some []⟩
        = Except.ok (toString i ++ ". [" ++ truncTitle t ++ "](" ++ u ++ ")" ++ ""
            ++ "\n" ++ "   *Source:* " ++ src ++ "\n\n") := by
  intro i t u src pub sen
  rfl

/-- The snapshot with every category cut to its first five items. -/
def truncSnap5 (nd : RawSnapshot) : RawSnapshot :=
  ⟨nd.bullish.take 5, nd.bearish.take 5, nd.neutral.take 5⟩

theorem categoryBlock_take (hdr : String) (items : List RawItem) :
    categoryBlock hdr (items.take 5) = categoryBlock hdr items := by
  cases items with
  | nil => rfl
  | cons a l => simp [categoryBlock, List.take_take]

/-- C6: each category block renders at most the first 5 items of its
category — composing a snapshot gives the same message as composing the
snapshot truncated to 5 items per category, the rendered item list of a block
has length at most 5, and those items are an initial segment of the
sequence of the category. -/
theorem c6_category_cap :
    ∀ (nd : RawSnapshot) (fud now : String),
      format_telegram_message nd fud now
          = format_telegram_message (truncSnap5 nd) fud now
        ∧ ∀ (hdr : String) (items : List RawItem),
            categoryBlock hdr items = categoryBlock hdr (items.take 5)
              ∧ (items.take 5).length ≤ 5
              ∧ items.take 5 ++ items.drop 5 = items := by
  intro nd fud now
  constructor
  · simp [format_telegram_message, formatBody, truncSnap5, categoryBlock_take]
  · intro hdr items
    refine ⟨(categoryBlock_take hdr items).symm, ?_, List.take_append_drop 5 items⟩
    simp [List.length_take]

/-- A 150-character title. -/
def title150 : String := String.mk (List.replicate 150 'x')

/-- C7: the title clean-up of the composer leaves a title of at most 100
characters unchanged, and renders a longer one as its first 97 characters
followed by the 3-character marker, 100 characters in total. -/
theorem c7_title_truncation :
    ∀ t : String,
      (100 < t.length →
        truncTitle t = pySlice t 97 ++ "..." ∧ (truncTitle t).length = 100) ∧
      (t.length ≤ 100 → truncTitle t = t) := by
  intro t
  have hdata : t.length = t.data.length := rfl
  constructor
  · intro h
    refine ⟨by simp [truncTitle, h], ?_⟩
    have h97 : (pySlice t 97).length = 97 := by
      show (t.data.take 97).length = 97
      rw [List.length_take]
      omega
    have : truncTitle t = pySlice t 97 ++ "..." := by simp [truncTitle, h]
    rw [this, String.length_append, h97]
    decide
  · intro h
    simp [truncTitle]
    omega

/-- Witness for C7 at the 150-character title. -/
theorem c7_title_truncation_witness :
    truncTitle title150 = pySlice title150 97 ++ "..."
      ∧ (truncTitle title150).length = 100 :=
  (c7_title_truncation title150).1
    (by show (100 : Nat) < (List.replicate 150 'x').length; simp)

/-- C8: the composer never fails — for every snapshot, narrative text and
timestamp, `format_telegram_message` returns the text of the body when it
succeeds, and degrades to an error-description string when the body raises
internally, so no error propagates to the caller. -/
theorem c8_composer_never_fails :
    ∀ (nd : RawSnapshot) (fud now : String),
      (∃ s, formatBody nd fud now = Except.ok s
          ∧ format_telegram_message nd fud now = s)
        ∨ (∃ e, formatBody nd fud now = Except.error e
          ∧ format_telegram_message nd fud now = "Error formatting news: " ++ e) := by
  intro nd fud now
  cases h : formatBody nd fud now with
  | ok s => exact Or.inl ⟨s, rfl, by simp [format_telegram_message, h]⟩
  | error e => exact Or.inr ⟨e, rfl, by simp [format_telegram_message, h]⟩

end CryptoPanicBot
